import Mathlib

set_option maxRecDepth 8192
set_option exponentiation.threshold 1100

/-!
Verification of the AlgaeFoundation teacher-analytics pipeline.

Shallow embedding of the data-normalization helpers (`to_bool`, `to_int`),
the Nominatim geocoding client (`geocode_address`), and the upload/ingestion
loop (`process_uploaded_file`) from `app.py` (the scripts
`geocode_existing_data.py`, `setup_supabase_database.py` and
`upload_to_supabase.py` contain verbatim copies of the same helpers, so one
embedding covers all variants).

Scalar cell values of a pandas row are modelled by `PyVal`; `PyVal.none`
stands for a missing cell (None/NaN, i.e. `pd.isna` is true).  Python's
builtin `float(...)` on a string is modelled by `parsePyFloat` over ASCII
decimal literals with the full CPython surface that matters to the
program: optional sign, optional fractional part, exponent notation,
PEP 515 underscores between digits, the case-insensitive literals
inf/infinity/nan, and saturation to infinity when the value's magnitude
reaches the double rounding boundary `2^1024 - 2^970` (string conversion
never raises on overflow; it returns ±inf).  In-range finite results are
kept as exact rationals: sub-ulp IEEE rounding and underflow-to-zero are
not modelled, as no claim depends on a result changing by less than one
unit in the last place (the only consumer of the exact value is
truncation toward zero).  `int(...)` applied to the result raises
ValueError on NaN — caught by `to_int`'s handler — and OverflowError on
±inf, which `except (ValueError, TypeError)` does not catch, so `to_int`
can raise; its model returns an `IntResult` that separates the returned
value from the uncaught OverflowError.
HTTP effects are made explicit: the outcome of `requests.get` (raised
exception vs. a response with a status and a parsed JSON body) is an input
`HttpOutcome`, and the side effects performed (issuing the GET, sleeping)
are returned as an event trace.
-/

/-- A scalar cell value as seen by the Python helpers: missing (None/NaN),
a bool, an int, or a string. -/
inductive PyVal where
  | none
  | bool (b : Bool)
  | int  (n : Int)
  | str  (s : String)
deriving DecidableEq

/-- Model of `pd.isna(val)`: true exactly for the missing value. -/
def pyIsNA : PyVal → Bool
  | .none => true
  | _ => false

/-- Model of Python `str(val)` on the scalar values of the model
(`str(True) = "True"`, `str(False) = "False"`, ints in decimal). -/
def pyStr : PyVal → String
  | .none => "None"
  | .bool b => if b then "True" else "False"
  | .int n => toString n
  | .str s => s

/-- Model of Python's `str.lower()` (ASCII case folding, which is all the
data uses). -/
def pyLower (s : String) : String :=
  String.mk (s.data.map Char.toLower)

/-- Model of Python's `str.strip()`: remove leading and trailing
whitespace. -/
def pyStrip (s : String) : String :=
  String.mk (((s.data.dropWhile Char.isWhitespace).reverse.dropWhile
    Char.isWhitespace).reverse)

/-- Digits of a decimal literal to a natural number. -/
def digitsToNat (l : List Char) : Nat :=
  l.foldl (fun a c => a * 10 + (c.toNat - 48)) 0

/-- Remainder of the check that a digit group is valid with PEP 515
underscores: `prev` is the previous character; the group must end in a
digit and every underscore must sit between two digits. -/
def validUDAux : Char → List Char → Bool
  | prev, [] => prev.isDigit
  | prev, c :: t =>
      if c = '_' then prev.isDigit && validUDAux c t
      else c.isDigit && validUDAux c t

/-- A nonempty digit group as Python's `float()` accepts it: digits with
single underscores strictly between digits (PEP 515), e.g. "1_0" but not
"_1", "1_" or "1__0". -/
def validUD : List Char → Bool
  | [] => false
  | c :: t => c.isDigit && validUDAux c t

/-- Numeric value of a digit group, underscores removed. -/
def udVal (l : List Char) : Nat :=
  digitsToNat (l.filter (fun c => c != '_'))

/-- Number of digits of a group, underscores removed. -/
def udLen (l : List Char) : Nat :=
  (l.filter (fun c => c != '_')).length

/-- Split a character list at the first separator matching `p`, or `none`
when no separator occurs. -/
def splitFirstBy (p : Char → Bool) : List Char → Option (List Char × List Char)
  | [] => none
  | c :: t =>
      if p c then some ([], t)
      else
        match splitFirstBy p t with
        | none => none
        | some (a, b) => some (c :: a, b)

/-- The magnitude at which a correctly-rounded decimal-to-double
conversion overflows: halfway between the largest finite double
`2^1024 - 2^971` and `2^1024`, with ties rounding away to infinity. -/
def overflowBound : Nat := 2 ^ 1024 - 2 ^ 970

/-- Whether `n * 10^scale` reaches the double overflow boundary, computed
in exact integer arithmetic. -/
def overflowsAt (n : Nat) (scale : Int) : Bool :=
  if 0 ≤ scale then overflowBound ≤ n * 10 ^ scale.toNat
  else overflowBound * 10 ^ (-scale).toNat ≤ n

/-- Result of Python's `float(...)`: a finite value (kept exact), an
infinity with its sign, or NaN. -/
inductive PyFloat where
  | finite (q : Rat)
  | inf (neg : Bool)
  | nan
deriving DecidableEq

/-- Exact value of a finite conversion result: mantissa `n` scaled by
`10^(e - k)` (`k` fractional digits, exponent `e`) with the sign
applied. -/
def finVal (neg : Bool) (n k : Nat) (e : Int) : Rat :=
  (if neg then (-1 : Rat) else 1) * (n : Rat) * (10 : Rat) ^ (e - (k : Int))

/-- Assemble a conversion result from parsed components, saturating to
infinity at the double overflow boundary as CPython's string conversion
does. -/
def mkPyFloat (neg : Bool) (n k : Nat) (e : Int) : PyFloat :=
  if overflowsAt n (e - (k : Int)) then .inf neg
  else .finite (finVal neg n k e)

/-- Parse the mantissa of a decimal literal: `digits`, `digits.digits`,
`digits.` or `.digits`, each digit group with PEP 515 underscores; yields
the numerator over `10^k` together with `k`. -/
def parseMant (l : List Char) : Option (Nat × Nat) :=
  match splitFirstBy (fun c => c == '.') l with
  | none => if validUD l then some (udVal l, 0) else none
  | some (a, b) =>
      if (a.isEmpty || validUD a) && (b.isEmpty || validUD b)
          && !(a.isEmpty && b.isEmpty) then
        some (udVal a * 10 ^ udLen b + udVal b, udLen b)
      else none

/-- Parse an exponent part (after `e`/`E`): optional sign and a digit
group. -/
def parseExp (l : List Char) : Option Int :=
  match l with
  | '-' :: r => if validUD r then some (-(udVal r : Int)) else none
  | '+' :: r => if validUD r then some ((udVal r : Int)) else none
  | r => if validUD r then some ((udVal r : Int)) else none

/-- Model of Python's builtin `float` on a string: strips whitespace and an
optional sign, accepts the case-insensitive literals inf/infinity/nan, and
otherwise a decimal literal with optional fraction and exponent; the
magnitude saturates to infinity at the double boundary.  Returns `none`
where the builtin raises `ValueError`.  (ASCII digits; Unicode digit forms
are outside the model.) -/
def parsePyFloat (s : String) : Option PyFloat :=
  let t := (pyStrip s).data
  let neg : Bool := match t with | '-' :: _ => true | _ => false
  let u : List Char := match t with
    | '-' :: r => r
    | '+' :: r => r
    | r => r
  let low := u.map Char.toLower
  if low = "inf".data || low = "infinity".data then some (.inf neg)
  else if low = "nan".data then some .nan
  else
    match splitFirstBy (fun c => c == 'e' || c == 'E') u with
    | some (m, ex) =>
        match parseMant m, parseExp ex with
        | some (n, k), some e => some (mkPyFloat neg n k e)
        | _, _ => none
    | none =>
        match parseMant u with
        | some (n, k) => some (mkPyFloat neg n k 0)
        | none => none

/-- The finite fragment of string-to-float conversion, as used by
`geocode_address`: there every conversion happens inside the blanket
`except Exception`, and Nominatim's `lat`/`lon` are plain decimal strings,
so only finite results are of interest; a failed or non-finite conversion
falls into the not-found path. -/
def parseFloat (s : String) : Option Rat :=
  match parsePyFloat s with
  | some (.finite q) => some q
  | _ => none

/-- Model of Python `float(val)` on a `PyVal`: `None` raises `TypeError`
(modelled `none`, caught by `to_int`), bools convert to 0/1, ints convert
to the nearest double — exact within the range the data uses, while an
integer beyond the largest double makes `float()` itself raise an
OverflowError, folded here into the infinite case since every use site
treats the two identically (an uncaught OverflowError) — and strings are
parsed by `parsePyFloat`. -/
def pyFloat : PyVal → Option PyFloat
  | .none => none
  | .bool b => some (.finite (if b then 1 else 0))
  | .int n =>
      if overflowsAt n.natAbs 0 then some (.inf (decide (n < 0)))
      else some (.finite (n : Rat))
  | .str s => parsePyFloat s

/-- Model of Python `int(...)` applied to a float value: truncation toward
zero. -/
def ratTrunc (q : Rat) : Int :=
  if 0 ≤ q then ⌊q⌋ else -⌊-q⌋

/-- `to_bool` from `app.py`: `pd.isna` gives `None`; a Python bool is
returned unchanged; otherwise `str(val).strip().lower()` is tested for
membership in `['yes', 'y', 'true', '1']`. -/
def to_bool (v : PyVal) : Option Bool :=
  if pyIsNA v then none
  else
    match v with
    | .bool b => some b
    | _ => some (["yes", "y", "true", "1"].contains (pyLower (pyStrip (pyStr v))))

/-- What a `to_int` call does: return a value (possibly `None`), or raise
an OverflowError that its `except (ValueError, TypeError)` handler does
not catch. -/
inductive IntResult where
  | ok (val : Option Int)
  | overflowError
deriving DecidableEq

/-- The fallback branch of `to_int`, reached when `int(float(val))` raised
a caught error: `str(val).strip().lower()` is matched against the
yes-words (100) and no-words (0); anything else gives `None`. -/
def to_int_fallback (v : PyVal) : Option Int :=
  let s := pyStrip (pyStr v)
  if ["yes", "y", "true"].contains (pyLower s) then some 100
  else if ["no", "n", "false"].contains (pyLower s) then some 0
  else none

/-- `to_int` from `app.py`: `pd.isna` gives `None`; then `int(float(val))`
is attempted — a finite conversion truncates toward zero; a NaN makes
`int` raise ValueError, which is caught like a parse failure and goes to
the fallback branch; an infinite result makes `int` raise OverflowError,
which `except (ValueError, TypeError)` does not catch, so the call
raises. -/
def to_int (v : PyVal) : IntResult :=
  if pyIsNA v then .ok none
  else
    match pyFloat v with
    | some (.finite q) => .ok (some (ratTrunc q))
    | some (.inf _) => .overflowError
    | some .nan => .ok (to_int_fallback v)
    | none => .ok (to_int_fallback v)

/-- The value of `to_int` where it returns.  Used by `toRecord`: a row on
which `to_int` raises never reaches the store, because the OverflowError
propagates to `process_uploaded_file`'s function-level `except Exception`
and aborts the upload (see `rowRaises`); on every persisted row this equals
the returned value. -/
def to_intVal (v : PyVal) : Option Int :=
  match to_int v with
  | .ok r => r
  | .overflowError => none

/-! ## Geocoder (`geocode_address` in `app.py`)

The outcome of the single `requests.get` call is an explicit input: either
the call raised (timeout / transport failure) or it returned a response
with a status code and a JSON body (a list of results, `none` when
`response.json()` raises).  The side effects performed by the function are
returned as an ordered event trace: in the source, `time.sleep(1)` sits
inside the `try` block directly after `requests.get`, so it runs exactly
when the GET itself returned (whatever the status), and is skipped when
the GET raised. -/

/-- The address components handed to the geocoder (each may be a missing
cell). -/
structure Address where
  street : PyVal
  city : PyVal
  state : PyVal
  zip : PyVal
deriving DecidableEq

/-- One element of the Nominatim JSON result array; each field may be
absent. -/
structure NominatimResult where
  lat : Option String
  lon : Option String
  display_name : Option String
deriving DecidableEq

/-- What `requests.get` did: raised, or returned a response with a status
and a body (`none` body models `response.json()` raising). -/
inductive HttpOutcome where
  | exn
  | response (status : Nat) (body : Option (List NominatimResult))

/-- Observable side effects of one `geocode_address` call. -/
inductive GeoEv where
  | httpGet (a : Address)
  | sleep (secs : Nat)
deriving DecidableEq

/-- `geocode_address` from `app.py`: issues the GET; if it returned, sleeps
one second; on status 200 with a nonempty result list, converts `lat` and
`lon` of the first result with `float(...)` and takes `display_name`
(default `""`); every raised exception (transport, JSON parse, float
conversion) is caught and yields `(None, None, None)`.  Returns the result
triple together with the event trace. -/
def geocode_address (a : Address) (o : HttpOutcome) :
    (Option Rat × Option Rat × Option String) × List GeoEv :=
  match o with
  | .exn => ((none, none, none), [.httpGet a])
  | .response status body =>
      let evs : List GeoEv := [.httpGet a, .sleep 1]
      if status = 200 then
        match body with
        | none => ((none, none, none), evs)
        | some [] => ((none, none, none), evs)
        | some (r :: _) =>
            match r.lat.bind parseFloat, r.lon.bind parseFloat with
            | some la, some lo =>
                ((some la, some lo, some (r.display_name.getD "")), evs)
            | _, _ => ((none, none, none), evs)
      else ((none, none, none), evs)

/-! ## Upload/ingestion pipeline (`process_uploaded_file` in `app.py`)

A row of the uploaded dataframe after the Latitude / Longitude / Geocoded
Address columns have been initialized; coordinate cells are `Option Rat`
(missing = NaN/None) and the geocoded address is `Option String`. -/

structure UploadRow where
  year : PyVal
  firstName : PyVal
  lastName : PyVal
  schoolName : PyVal
  schoolDistrict : PyVal
  schoolAddress : PyVal
  city : PyVal
  state : PyVal
  zip : PyVal
  county : PyVal
  email : PyVal
  title1 : PyVal
  publicPrivate : PyVal
  lunch : PyVal
  ellStudents : PyVal
  returningTeacher : PyVal
  totalStudents : PyVal
  semester : PyVal
  latitude : Option Rat
  longitude : Option Rat
  geocodedAddress : Option String
deriving DecidableEq

/-- A record as prepared for the `teacher_data` Supabase table. -/
structure Record where
  year : Option String
  first_name : Option String
  last_name : Option String
  school_name : Option String
  school_district : Option String
  school_address : Option String
  city : Option String
  state : Option String
  zip : Option String
  county : Option String
  email : Option String
  title_1 : Option Bool
  public_private : Option String
  students_receiving_free_reduced_lunch : Option Int
  ell_students_in_class : Option Bool
  returning_teacher : Option Bool
  total_students : Option Int
  semester : Option String
  latitude : Option Rat
  longitude : Option Rat
  geocoded_address : Option String
deriving DecidableEq

/-- Model of `str(row[c]) if pd.notna(row[c]) else None`. -/
def optStr (v : PyVal) : Option String :=
  if pyIsNA v then none else some (pyStr v)

/-- The record built for one row in the upload loop of
`process_uploaded_file` (lines 205-229 of `app.py`). -/
def toRecord (r : UploadRow) : Record where
  year := optStr r.year
  first_name := optStr r.firstName
  last_name := optStr r.lastName
  school_name := optStr r.schoolName
  school_district := optStr r.schoolDistrict
  school_address := optStr r.schoolAddress
  city := optStr r.city
  state := optStr r.state
  zip := optStr r.zip
  county := optStr r.county
  email := optStr r.email
  title_1 := to_bool r.title1
  public_private := optStr r.publicPrivate
  students_receiving_free_reduced_lunch := to_intVal r.lunch
  ell_students_in_class := to_bool r.ellStudents
  returning_teacher := to_bool r.returningTeacher
  total_students := to_intVal r.totalStudents
  semester := optStr r.semester
  latitude := r.latitude
  longitude := r.longitude
  geocoded_address := r.geocodedAddress

/-- The address components a row contributes to geocoding. -/
def rowAddress (r : UploadRow) : Address where
  street := r.schoolAddress
  city := r.city
  state := r.state
  zip := r.zip

/-- One iteration of the geocoding loop: rows that already carry both
coordinates are skipped (`continue`) and counted successful; otherwise the
geocoder runs and the row is updated only when both returned coordinates
are non-`None`.  Yields (possibly-updated row, geocoder invoked?, success
count contribution). -/
def processRow (o : HttpOutcome) (r : UploadRow) : UploadRow × Bool × Nat :=
  if r.latitude.isSome && r.longitude.isSome then (r, false, 1)
  else
    match (geocode_address (rowAddress r) o).1 with
    | (some la, some lo, addr) =>
        ({ r with latitude := some la, longitude := some lo,
                  geocodedAddress := addr }, true, 1)
    | _ => (r, true, 0)

/-- The geocoding loop over all rows; `geo i` is the HTTP outcome the
world would give the call made for row `i`. -/
def geocodeRows (geo : Nat → HttpOutcome) : Nat → List UploadRow →
    List (UploadRow × Bool × Nat)
  | _, [] => []
  | i, r :: rs => processRow (geo i) r :: geocodeRows geo (i + 1) rs

/-- Model of `name.endswith(ext)`. -/
def endsWithExt (name ext : String) : Bool :=
  ext.data.isSuffixOf name.data

/-- The extension check at the top of `process_uploaded_file`. -/
def supportedName (name : String) : Bool :=
  endsWithExt name ".csv" || endsWithExt name ".xlsx" || endsWithExt name ".xls"

/-- Result of one `process_uploaded_file` call: whether it reported
success, the persisted dataset afterwards, the per-row geocoder-invocation
flags, and the reported success count. -/
structure IngestResult where
  success : Bool
  db : List Record
  invoked : List Bool
  successfulGeocodes : Nat
deriving DecidableEq

/-- Whether building the record for a row raises: `to_int` runs on the
percent-lunch and total-students cells, and an infinite conversion result
raises an OverflowError there. -/
def rowRaises (r : UploadRow) : Bool :=
  (match to_int r.lunch with
   | .overflowError => true
   | .ok _ => false)
  || (match to_int r.totalStudents with
      | .overflowError => true
      | .ok _ => false)

/-- `process_uploaded_file` from `app.py`, over an explicit persisted
dataset `db`: an unsupported file name reports an error and returns before
any geocoding or insert; otherwise the geocoding loop runs over the rows
and records are built.  An OverflowError raised while building a record
propagates to the function-level `except Exception` handler, which reports
failure before any insert, leaving the store unchanged (the geocoding
calls have already happened by then).  Otherwise the records are appended
to the store in batches (batching does not change the final contents,
which is what is modelled). -/
def process_uploaded_file (name : String) (rows : List UploadRow)
    (geo : Nat → HttpOutcome) (db : List Record) : IngestResult :=
  if supportedName name then
    let processed := geocodeRows geo 0 rows
    let aborted := (processed.map (fun p => p.1)).any rowRaises
    { success := !aborted
      db := if aborted then db else db ++ processed.map (fun p => toRecord p.1)
      invoked := processed.map (fun p => p.2.1)
      successfulGeocodes := (processed.map (fun p => p.2.2)).sum }
  else
    { success := false, db := db, invoked := [], successfulGeocodes := 0 }

/-- Model of `df[col].fillna('Unknown')` applied to one loaded cell in
`load_data`. -/
def fillUnknown (v : Option String) : String :=
  match v with
  | none => "Unknown"
  | some s => s

/-- List-of-chars substring test (helper for the spec-side classifier). -/
def hasSub (hay needle : List Char) : Bool :=
  match hay with
  | [] => needle.isEmpty
  | _ :: t => needle.isPrefixOf hay || hasSub t needle

/-- Modelled from the spec (no such code exists under `src/`): the
school-type classifier the spec describes — case-insensitive substring
match, "public" before "private", then "Other", missing yields
"Unknown".  Used only to compare the spec's words against what
`process_uploaded_file` and `load_data` actually do with the
school-type field. -/
def specSchoolType (v : Option String) : String :=
  match v with
  | none => "Unknown"
  | some s =>
      if hasSub (pyLower s).data "public".data then "Public"
      else if hasSub (pyLower s).data "private".data then "Private"
      else "Other"

/-! ## Sample inputs used by witnesses and counterexamples -/

/-- An upload row whose cells are all missing. -/
def blankRow : UploadRow where
  year := .none
  firstName := .none
  lastName := .none
  schoolName := .none
  schoolDistrict := .none
  schoolAddress := .none
  city := .none
  state := .none
  zip := .none
  county := .none
  email := .none
  title1 := .none
  publicPrivate := .none
  lunch := .none
  ellStudents := .none
  returningTeacher := .none
  totalStudents := .none
  semester := .none
  latitude := none
  longitude := none
  geocodedAddress := none

/-- A row uploaded with both coordinates already present. -/
def rowGeo : UploadRow :=
  { blankRow with latitude := some 41, longitude := some (-87),
                  geocodedAddress := some "already geocoded" }

/-- A row uploaded with a latitude but no longitude. -/
def rowHalf : UploadRow :=
  { blankRow with latitude := some 5 }

/-- A row whose school-type cell contains the word PUBLIC. -/
def rowPub : UploadRow :=
  { blankRow with publicPrivate := .str "PUBLIC SCHOOL" }

/-- A world in which every geocoding request times out. -/
def geoExn : Nat → HttpOutcome := fun _ => .exn

/-- An address whose cells are all missing. -/
def addrBlank : Address where
  street := .none
  city := .none
  state := .none
  zip := .none

/-- A sample successful Nominatim result. -/
def resWH : NominatimResult where
  lat := some "38.9"
  lon := some "-77.0"
  display_name := some "White House"

/-! ## Helper lemmas -/

theorem geocode_result_shape (a : Address) (o : HttpOutcome) :
    (geocode_address a o).1 = (none, none, none)
    ∨ ∃ la lo d, (geocode_address a o).1 = (some la, some lo, some d) := by
  cases o with
  | exn => exact Or.inl rfl
  | response s b =>
      by_cases hs : s = 200
      · subst hs
        cases b with
        | none => exact Or.inl rfl
        | some l =>
            cases l with
            | nil => exact Or.inl rfl
            | cons r rest =>
                cases hla : r.lat.bind parseFloat with
                | none => exact Or.inl (by simp [geocode_address, hla])
                | some la =>
                    cases hlo : r.lon.bind parseFloat with
                    | none => exact Or.inl (by simp [geocode_address, hla, hlo])
                    | some lo =>
                        exact Or.inr ⟨la, lo, r.display_name.getD "",
                          by simp [geocode_address, hla, hlo]⟩
      · exact Or.inl (by simp [geocode_address, hs])

theorem geocode_response_trace (a : Address) (s : Nat)
    (b : Option (List NominatimResult)) :
    (geocode_address a (.response s b)).2 = [GeoEv.httpGet a, GeoEv.sleep 1] := by
  by_cases hs : s = 200
  · subst hs
    cases b with
    | none => rfl
    | some l =>
        cases l with
        | nil => rfl
        | cons r rest =>
            cases hla : r.lat.bind parseFloat with
            | none => simp [geocode_address, hla]
            | some la =>
                cases hlo : r.lon.bind parseFloat with
                | none => simp [geocode_address, hla, hlo]
                | some lo => simp [geocode_address, hla, hlo]
  · simp [geocode_address, hs]

theorem processRow_skip (o : HttpOutcome) (r : UploadRow)
    (h : (r.latitude.isSome && r.longitude.isSome) = true) :
    processRow o r = (r, false, 1) := by
  simp [processRow, h]

theorem processRow_invoked (o : HttpOutcome) (r : UploadRow)
    (h : (r.latitude.isSome && r.longitude.isSome) = false) :
    (processRow o r).2.1 = true := by
  unfold processRow
  split
  · simp_all
  · split <;> rfl

theorem processRow_both_or_neither (o : HttpOutcome) (r : UploadRow)
    (h : r.latitude.isSome = r.longitude.isSome) :
    (processRow o r).1.latitude.isSome = (processRow o r).1.longitude.isSome := by
  unfold processRow
  split
  · exact h
  · split
    · simp
    · exact h

theorem geocodeRows_get (geo : Nat → HttpOutcome) (i : Nat)
    (rows : List UploadRow) (j : Nat) :
    (geocodeRows geo i rows)[j]? =
      (rows[j]?).map (fun r => processRow (geo (i + j)) r) := by
  induction rows generalizing i j with
  | nil => simp [geocodeRows]
  | cons r rs ih =>
      cases j with
      | zero => simp [geocodeRows]
      | succ j =>
          have harith : i + 1 + j = i + (j + 1) := by omega
          simp [geocodeRows, ih (i + 1) j, harith]

theorem mem_geocodeRows (geo : Nat → HttpOutcome) (i : Nat)
    (rows : List UploadRow) (p : UploadRow × Bool × Nat)
    (h : p ∈ geocodeRows geo i rows) :
    ∃ k r, r ∈ rows ∧ p = processRow (geo k) r := by
  induction rows generalizing i with
  | nil => simp [geocodeRows] at h
  | cons r rs ih =>
      simp only [geocodeRows, List.mem_cons] at h
      rcases h with h | h
      · exact ⟨i, r, List.mem_cons_self r rs, h⟩
      · obtain ⟨k, r2, hm, he⟩ := ih (i + 1) h
        exact ⟨k, r2, List.mem_cons_of_mem r hm, he⟩

/-! ## Claims about the record normalizer -/

/-- C1 counterexample: contrary to the claim, `to_int` maps the
parse-failing value "no" to 0 rather than unknown, and it is not
exception-free: an infinite conversion result — the literal "inf", or a
value past the largest double such as "1e400" — makes `int()` raise an
OverflowError that `except (ValueError, TypeError)` does not catch. -/
theorem to_int_no_yields_zero :
    to_int (PyVal.str "no") = .ok (some 0)
    ∧ to_int (PyVal.str "no") ≠ .ok none
    ∧ to_int (PyVal.str "inf") = .overflowError
    ∧ to_int (PyVal.str "1e400") = .overflowError := by
  decide

/-- C1 (amended): `to_int` maps null to unknown; a conversion yielding a
finite float truncates toward zero (so "85.7" gives 85, not 86); a
conversion attempt that raises a caught error — an unparseable string such
as "N/A" (ValueError from `float`), or a NaN result (ValueError from
`int`) — falls back to the boolean-word mapping and gives unknown outside
those words; an infinite conversion result raises an uncaught
OverflowError instead of returning. -/
theorem to_int_amended :
    (to_int PyVal.none = .ok none)
    ∧ (∀ v q, pyIsNA v = false → pyFloat v = some (.finite q) →
        to_int v = .ok (some (ratTrunc q)))
    ∧ (to_int (PyVal.str "85.7") = .ok (some 85))
    ∧ (to_int (PyVal.str "N/A") = .ok none)
    ∧ (∀ v b, pyIsNA v = false → pyFloat v = some (.inf b) →
        to_int v = .overflowError)
    ∧ (∀ v, pyIsNA v = false →
        (pyFloat v = none ∨ pyFloat v = some PyFloat.nan) →
        (["yes", "y", "true"].contains (pyLower (pyStrip (pyStr v)))) = false →
        (["no", "n", "false"].contains (pyLower (pyStrip (pyStr v)))) = false →
        to_int v = .ok none) := by
  refine ⟨rfl, ?_, ?_, by decide, ?_, ?_⟩
  · intro v q h1 h2
    simp [to_int, h1, h2]
  · have h : pyFloat (PyVal.str "85.7")
        = some (PyFloat.finite (finVal false 857 1 0)) := by rfl
    have h2 : finVal false 857 1 0 = 857 / 10 := by
      norm_num [finVal]
    simp only [to_int, pyIsNA, h, h2, ratTrunc]
    norm_num
  · intro v b h1 h2
    simp [to_int, h1, h2]
  · intro v h1 h2 h3 h4
    rcases h2 with h2 | h2 <;>
      (simp only [to_int, h1, h2, to_int_fallback, h3, h4]; simp)

/-- Witness for `to_int_amended` at concrete inputs. -/
theorem to_int_amended_witness :
    to_int (PyVal.str "12.9") = .ok (some (ratTrunc (finVal false 129 1 0)))
    ∧ to_int (PyVal.str "maybe") = .ok none
    ∧ to_int (PyVal.str "-1e309") = .overflowError :=
  ⟨to_int_amended.2.1 (PyVal.str "12.9") (finVal false 129 1 0)
      (by decide) rfl,
   to_int_amended.2.2.2.2.2 (PyVal.str "maybe")
      (by decide) (Or.inl (by decide)) (by decide) (by decide),
   to_int_amended.2.2.2.2.1 (PyVal.str "-1e309") true
      (by decide) (by decide)⟩

/-- C10: `to_int` falls back to the boolean-word mapping exactly when the
numeric-parse attempt `int(float(val))` raises a caught error — the string
fails to parse (ValueError from `float`), or parses to NaN (ValueError
from `int`): trimmed case-insensitive "yes"/"y"/"true" give 100,
"no"/"n"/"false" give 0, anything else gives unknown; null gives
unknown. -/
theorem to_int_bool_words :
    (to_int PyVal.none = .ok none)
    ∧ (∀ v, pyIsNA v = false →
        (pyFloat v = none ∨ pyFloat v = some PyFloat.nan) →
        to_int v = .ok
          (if ["yes", "y", "true"].contains (pyLower (pyStrip (pyStr v))) then
            some 100
          else if ["no", "n", "false"].contains (pyLower (pyStrip (pyStr v))) then
            some 0
          else none)) := by
  refine ⟨rfl, ?_⟩
  intro v h1 h2
  rcases h2 with h2 | h2 <;> simp [to_int, h1, h2, to_int_fallback]

/-- Witness for `to_int_bool_words` at concrete inputs: a parse failure
and a NaN result. -/
theorem to_int_bool_words_witness :
    to_int (PyVal.str " Yes ") = .ok (some 100)
    ∧ to_int (PyVal.str "nan") = .ok none := by
  constructor
  · have h := to_int_bool_words.2 (PyVal.str " Yes ")
      (by decide) (Or.inl (by decide))
    rw [h]; decide
  · have h := to_int_bool_words.2 (PyVal.str "nan")
      (by decide) (Or.inr (by decide))
    rw [h]; decide

/-- C5 counterexample: the claim says an empty input must not become
false, but `pd.isna("")` is false, so `to_bool` maps the empty string to
false rather than unknown. -/
theorem to_bool_empty_string :
    to_bool (PyVal.str "") = some false ∧ to_bool (PyVal.str "") ≠ none := by
  decide

/-- C5 (amended): `to_bool` yields unknown exactly on null/NaN input; every
present value — including the empty string — normalizes to true exactly
when its trimmed, lowercased string form is in {"yes","y","true","1"}
(a Python bool passes through, consistently with that rule); unknown
remains distinguishable from false. -/
theorem to_bool_amended :
    (to_bool PyVal.none = none)
    ∧ (∀ v, pyIsNA v = false →
        to_bool v =
          some (["yes", "y", "true", "1"].contains (pyLower (pyStrip (pyStr v)))))
    ∧ (to_bool PyVal.none ≠ some false) := by
  refine ⟨rfl, ?_, by decide⟩
  intro v h
  cases v with
  | none => simp [pyIsNA] at h
  | bool b => cases b <;> decide
  | int n => rfl
  | str s => rfl

/-- Witness for `to_bool_amended` at a concrete input. -/
theorem to_bool_amended_witness : to_bool (PyVal.str " tRuE ") = some true := by
  have h := to_bool_amended.2.1 (PyVal.str " tRuE ") (by decide)
  rw [h]; decide

/-! ## Claims about the geocoder -/

/-- C2: for every input address and every HTTP world, `geocode_address`
never raises (it is total): a raised transport error or timeout, a
non-200 status, an unparseable body, or an empty result list all yield the
not-found triple `(None, None, None)`, and on success it yields a latitude
float, a longitude float and a display string. -/
theorem geocode_address_never_raises (a : Address) (o : HttpOutcome) :
    ((geocode_address a o).1 = (none, none, none)
      ∨ ∃ la lo d, (geocode_address a o).1 = (some la, some lo, some d))
    ∧ ((geocode_address a HttpOutcome.exn).1 = (none, none, none))
    ∧ (∀ s b, s ≠ 200 →
        (geocode_address a (HttpOutcome.response s b)).1 = (none, none, none))
    ∧ (∀ b, b.getD [] = [] →
        (geocode_address a (HttpOutcome.response 200 b)).1 = (none, none, none))
    ∧ (∀ r rest la lo,
        r.lat.bind parseFloat = some la → r.lon.bind parseFloat = some lo →
        (geocode_address a (HttpOutcome.response 200 (some (r :: rest)))).1
          = (some la, some lo, some (r.display_name.getD ""))) := by
  refine ⟨geocode_result_shape a o, rfl, ?_, ?_, ?_⟩
  · intro s b hs
    simp [geocode_address, hs]
  · intro b hb
    cases b with
    | none => rfl
    | some l =>
        cases l with
        | nil => rfl
        | cons r rest => simp at hb
  · intro r rest la lo h1 h2
    simp [geocode_address, h1, h2]

/-- Witness for `geocode_address_never_raises`: a timed-out call, a 503, an
empty result list, and a successful lookup. -/
theorem geocode_address_never_raises_witness :
    (geocode_address addrBlank HttpOutcome.exn).1 = (none, none, none)
    ∧ (geocode_address addrBlank (HttpOutcome.response 503 none)).1
        = (none, none, none)
    ∧ (geocode_address addrBlank (HttpOutcome.response 200 (some []))).1
        = (none, none, none)
    ∧ (geocode_address addrBlank (HttpOutcome.response 200 (some [resWH]))).1
        = (some (finVal false 389 1 0), some (finVal true 770 1 0),
           some "White House") :=
  ⟨(geocode_address_never_raises addrBlank HttpOutcome.exn).2.1,
   (geocode_address_never_raises addrBlank
      (HttpOutcome.response 503 none)).2.2.1 503 none (by decide),
   (geocode_address_never_raises addrBlank
      (HttpOutcome.response 200 (some []))).2.2.2.1 (some []) rfl,
   (geocode_address_never_raises addrBlank
      (HttpOutcome.response 200 (some [resWH]))).2.2.2.2 resWH []
      (finVal false 389 1 0) (finVal true 770 1 0) rfl rfl⟩

/-- C3 counterexample: the claim says the one-second pause runs after
every call including transport errors and timeouts, but when
`requests.get` raises, control jumps to the `except` handler and
`time.sleep(1)` — which sits after the GET inside the `try` — never
runs. -/
theorem geocode_no_sleep_on_exn :
    ¬ GeoEv.sleep 1 ∈ (geocode_address addrBlank HttpOutcome.exn).2 := by
  decide

/-- C3 (amended): the one-second pause runs after every call whose HTTP
request returned a response (any status, even with an unparseable body),
but it is skipped when the request itself raised (timeout or transport
error), so only calls that receive a response are spaced one second
apart. -/
theorem geocode_sleep_after_response :
    (∀ (a : Address) (s : Nat) (b : Option (List NominatimResult)),
      GeoEv.sleep 1 ∈ (geocode_address a (.response s b)).2)
    ∧ (∀ a : Address, (geocode_address a HttpOutcome.exn).2 = [GeoEv.httpGet a]) := by
  constructor
  · intro a s b
    rw [geocode_response_trace]
    simp
  · intro a
    rfl

/-! ## Claims about the ingestion pipeline -/

/-- C4: in the ingestion loop, a row that already has both coordinates is
never geocoded — it is left unchanged and counted as one success — and the
geocoder is invoked exactly for the rows lacking a coordinate. -/
theorem ingestion_skips_geocoded (geo : Nat → HttpOutcome)
    (rows : List UploadRow) (j : Nat) (r : UploadRow)
    (h : rows[j]? = some r) :
    ((r.latitude.isSome && r.longitude.isSome) = true →
      (geocodeRows geo 0 rows)[j]? = some (r, false, 1))
    ∧ ((r.latitude.isSome && r.longitude.isSome) = false →
      ((geocodeRows geo 0 rows)[j]?).map (fun p => p.2.1) = some true) := by
  constructor
  · intro hb
    rw [geocodeRows_get geo 0 rows j, h]
    simp [processRow_skip _ _ hb]
  · intro hb
    rw [geocodeRows_get geo 0 rows j, h]
    simp [processRow_invoked _ _ hb]

/-- Witness for `ingestion_skips_geocoded` on a two-row batch: the
already-geocoded row is skipped and the blank row triggers an
invocation. -/
theorem ingestion_skips_geocoded_witness :
    (geocodeRows geoExn 0 [rowGeo, blankRow])[0]? = some (rowGeo, false, 1)
    ∧ ((geocodeRows geoExn 0 [rowGeo, blankRow])[1]?).map (fun p => p.2.1)
        = some true :=
  ⟨(ingestion_skips_geocoded geoExn [rowGeo, blankRow] 0 rowGeo rfl).1
      (by decide),
   (ingestion_skips_geocoded geoExn [rowGeo, blankRow] 1 blankRow rfl).2
      (by decide)⟩

/-- C6: an upload whose file name has no supported tabular extension
(.csv, .xlsx, .xls) is rejected whole: the call reports failure, the
geocoder is never invoked, and the persisted dataset is unchanged. -/
theorem unsupported_upload_rejected (name : String) (rows : List UploadRow)
    (geo : Nat → HttpOutcome) (db : List Record)
    (h : supportedName name = false) :
    process_uploaded_file name rows geo db
      = { success := false, db := db, invoked := [], successfulGeocodes := 0 } := by
  simp [process_uploaded_file, h]

/-- Witness for `unsupported_upload_rejected` on a ".txt" upload. -/
theorem unsupported_upload_rejected_witness :
    process_uploaded_file "roster.txt" [blankRow] geoExn []
      = { success := false, db := [], invoked := [], successfulGeocodes := 0 } :=
  unsupported_upload_rejected "roster.txt" [blankRow] geoExn [] (by decide)

/-- C7 counterexample: the claim says a school-type value containing
"public" normalizes to "Public", but the code stores the raw value
verbatim — no substring classification exists anywhere in the
pipeline. -/
theorem school_type_not_classified :
    (toRecord rowPub).public_private = some "PUBLIC SCHOOL"
    ∧ specSchoolType (toRecord rowPub).public_private = "Public"
    ∧ (toRecord rowPub).public_private ≠ some "Public" := by
  decide

/-- C7 (amended): the school-type field is passed through verbatim
(stringified) when present; a missing value is stored as null at ingest
time and rendered as the literal "Unknown" only when the dataset is loaded
for display. -/
theorem school_type_passthrough :
    (∀ r : UploadRow, (toRecord r).public_private = optStr r.publicPrivate)
    ∧ (∀ v, pyIsNA v = false → optStr v = some (pyStr v))
    ∧ (optStr PyVal.none = none)
    ∧ (fillUnknown none = "Unknown")
    ∧ (∀ s, fillUnknown (some s) = s) := by
  refine ⟨fun r => rfl, ?_, rfl, rfl, fun s => rfl⟩
  intro v h
  simp [optStr, h]

/-- Witness for `school_type_passthrough` at a concrete school-type
value. -/
theorem school_type_passthrough_witness :
    optStr (PyVal.str "Private Academy") = some "Private Academy" :=
  school_type_passthrough.2.1 (PyVal.str "Private Academy") (by decide)

/-- C8 counterexample: the claim says a missing free-text value normalizes
to the literal "Unknown" in the normalized record, but the record built
for persistence stores null for a missing cell. -/
theorem ingest_record_missing_text_is_null :
    (toRecord blankRow).email = none
    ∧ (toRecord blankRow).email ≠ some "Unknown" := by
  decide

/-- C8 (amended): the record prepared for persistence keeps every missing
free-text field (name, school, district, address, city, state, zip,
county, email, semester) as null; the literal "Unknown" is substituted
only when the dataset is loaded for display (`fillna` in
`load_data`). -/
theorem text_fields_null_at_ingest_filled_on_load :
    (∀ r : UploadRow,
      (pyIsNA r.firstName = true → (toRecord r).first_name = none)
      ∧ (pyIsNA r.lastName = true → (toRecord r).last_name = none)
      ∧ (pyIsNA r.schoolName = true → (toRecord r).school_name = none)
      ∧ (pyIsNA r.schoolDistrict = true → (toRecord r).school_district = none)
      ∧ (pyIsNA r.schoolAddress = true → (toRecord r).school_address = none)
      ∧ (pyIsNA r.city = true → (toRecord r).city = none)
      ∧ (pyIsNA r.state = true → (toRecord r).state = none)
      ∧ (pyIsNA r.zip = true → (toRecord r).zip = none)
      ∧ (pyIsNA r.county = true → (toRecord r).county = none)
      ∧ (pyIsNA r.email = true → (toRecord r).email = none)
      ∧ (pyIsNA r.semester = true → (toRecord r).semester = none))
    ∧ (fillUnknown none = "Unknown")
    ∧ (∀ s, fillUnknown (some s) = s) := by
  refine ⟨?_, rfl, fun s => rfl⟩
  intro r
  refine ⟨?_, ?_, ?_, ?_, ?_, ?_, ?_, ?_, ?_, ?_, ?_⟩ <;>
    (intro h; simp [toRecord, optStr, h])

/-- Witness for `text_fields_null_at_ingest_filled_on_load` on the blank
row: the persisted field is null and the loaded rendering is
"Unknown". -/
theorem text_fields_null_witness :
    (toRecord blankRow).first_name = none
    ∧ fillUnknown (toRecord blankRow).email = "Unknown" :=
  ⟨(text_fields_null_at_ingest_filled_on_load.1 blankRow).1 rfl,
   by rw [(text_fields_null_at_ingest_filled_on_load.1
        blankRow).2.2.2.2.2.2.2.2.2.1 rfl]; rfl⟩

/-- C9 counterexample: the claim says every record prepared for
persistence has latitude and longitude both present or both absent, but a
row uploaded with only a latitude keeps it when geocoding fails, and the
persisted record then has a latitude and no longitude. -/
theorem pipeline_partial_coordinates :
    ((process_uploaded_file "a.csv" [rowHalf] geoExn []).db.map
      (fun rec => (rec.latitude.isSome, rec.longitude.isSome)))
      = [(true, false)] := by
  decide

/-- C9 (amended): `geocode_address` returns latitude and longitude both
present or both absent; the ingestion loop never sets one coordinate
without the other, so the both-or-neither property is preserved: if every
uploaded row and every already-persisted record satisfies it, every record
in the persisted dataset after `process_uploaded_file` satisfies it. -/
theorem coords_both_or_neither :
    (∀ a o, (geocode_address a o).1.1.isSome = (geocode_address a o).1.2.1.isSome)
    ∧ (∀ o r, r.latitude.isSome = r.longitude.isSome →
        (processRow o r).1.latitude.isSome = (processRow o r).1.longitude.isSome)
    ∧ (∀ name rows geo db,
        (∀ r ∈ rows, r.latitude.isSome = r.longitude.isSome) →
        (∀ rec ∈ db, rec.latitude.isSome = rec.longitude.isSome) →
        ∀ rec ∈ (process_uploaded_file name rows geo db).db,
          rec.latitude.isSome = rec.longitude.isSome) := by
  refine ⟨?_, processRow_both_or_neither, ?_⟩
  · intro a o
    rcases geocode_result_shape a o with h | ⟨la, lo, d, h⟩ <;> simp [h]
  · intro name rows geo db hrows hdb rec hrec
    by_cases hn : supportedName name = true
    · simp only [process_uploaded_file, hn, if_true] at hrec
      split at hrec
      · exact hdb rec hrec
      · rw [List.mem_append] at hrec
        rcases hrec with hrec | hrec
        · exact hdb rec hrec
        · rw [List.mem_map] at hrec
          obtain ⟨p, hp, rfl⟩ := hrec
          obtain ⟨k, r, hr, rfl⟩ := mem_geocodeRows geo 0 rows p hp
          have hb := processRow_both_or_neither (geo k) r (hrows r hr)
          simpa [toRecord] using hb
    · have hn2 : supportedName name = false := by
        revert hn; cases supportedName name <;> simp
      simp [process_uploaded_file, hn2] at hrec
      exact hdb rec hrec

/-- Witness for `coords_both_or_neither` on a one-row upload whose
geocoding call times out. -/
theorem coords_both_or_neither_witness :
    (toRecord (processRow (geoExn 0) blankRow).1).latitude.isSome
      = (toRecord (processRow (geoExn 0) blankRow).1).longitude.isSome :=
  coords_both_or_neither.2.2 "a.csv" [blankRow] geoExn []
    (by decide) (by decide)
    (toRecord (processRow (geoExn 0) blankRow).1) (by decide)
